import Mathlib

/-!
Verification of the resilient fetch-and-cache coordinator of
`src/Summarization/agregasi/app/services.py` (`get_prediction_swr` and the
functions it calls), as a shallow embedding in Lean 4.

Modelling conventions, stated once:

* The only store keys a single call touches are `trend:<normalized>`,
  `lock:<normalized>` and `usage:global:<date>`; the `Store` record has one
  slot per such key (the three prefixes are disjoint, so a keyed map would
  add nothing).
* Every `redis_*_with_retry` wrapper is `@retry(stop_after_attempt(3),
  wait_fixed(1), reraise=True)` over the underlying Redis command.
  Connectivity is modelled by an oracle `avail : Nat → Bool` indexed by
  attempt slots; each wrapper call reserves three consecutive slots (its
  possible attempts) and the logical operation succeeds iff at least one of
  its three slots is available, which is exactly "some attempt got through".
  A wrapper whose three slots are all unavailable re-raises the Redis error
  (`StoreUnavailable` in the spec's vocabulary), modelled as `false` from
  `tryOp`.
* External providers (pytrends, Apify) and the cache contents observed by a
  waiter while another process is writing are modelled by oracles giving the
  outcome of each attempt / poll.
* Wall-clock time: `now` is the value of `time.time()` during the call, in
  whole seconds; `age = now - timestamp` uses `Nat` subtraction, which agrees
  with the Python float comparison `age < 86400` whenever `timestamp ≤ now`
  and also classifies a future timestamp as fresh, as the float code does.
* Each call appends an event to a trace: one event per Redis wrapper call
  (whether or not it succeeded — the attempt was made), one per provider
  attempt, one per sleep. Claims about operation ordering are read off this
  trace.
-/

namespace Swr

/-- One timeline data point, `{"date": ..., "value": ...}` as built by
`fetch_from_pytrends` / `fetch_from_apify` in services.py. -/
structure Point where
  date : String
  value : Int
deriving DecidableEq, Repr

/-- Provider stats dict: `duration_ms`, `compute_units`, and for pytrends
also `"source": "pytrends"` (the Apify stats dict has no `source` key). -/
structure Stats where
  durationMs : Nat
  computeUnits : Nat
  source : Option String
deriving DecidableEq, Repr

/-- The output of `process_data` (services.py 296-483).  The pandas
aggregation pipeline is outside the coordinator (spec §1 declares the
payload an opaque serializable blob and no claim depends on its contents);
the model keeps the input-validation behaviour visible to the coordinator —
rows with negative values are dropped, and an empty input or an input with
no remaining valid rows raises `DataValidationException` — and represents
the aggregate opaquely by the rows it was computed from. -/
structure Processed where
  rows : List Point
deriving DecidableEq, Repr

/-- A cache entry as serialized at `trend:<normalized>`:
`{"timestamp": time.time(), "data": ..., "stats": ...}`.  `stats` is read
back with `.get("stats")`, hence optional. -/
structure CacheEntry where
  timestamp : Nat
  data : Processed
  stats : Option Stats
deriving DecidableEq, Repr

/-- The value stored at the cache key: a JSON-decodable entry, or bytes on
which `json.loads` raises (`JSONDecodeError` branches in services.py). -/
inductive CacheVal where
  | corrupt : CacheVal
  | entry : CacheEntry → CacheVal
deriving DecidableEq, Repr

/-- The store slots a single `get_prediction_swr` call can touch:
`cache` is `trend:<normalized>`, `lock` is presence of `lock:<normalized>`,
`usage` is `usage:global:<date>` (absent or an integer). -/
structure Store where
  cache : Option CacheVal
  lock : Bool
  usage : Option Nat
deriving DecidableEq, Repr

/-- The exceptions `get_prediction_swr` and its callees can surface:
`HTTPException(429)`, `HTTPException(503)`, `PyTrendsUnavailableException`,
`DataNotFoundException`, `DataValidationException`, and any other exception
raised by the Apify client call. -/
inductive Err where
  | http429 : Err
  | http503 : Err
  | pytrendsUnavailable : Err
  | dataNotFound : Err
  | dataValidation : Err
  | apifyFailure : Err
deriving DecidableEq, Repr

/-- Trace events: one per Redis wrapper call, provider attempt, or sleep.
TTLs are in seconds, sleeps in milliseconds. -/
inductive Ev where
  | rGet : String → Ev
  | rSetNX : String → Nat → Ev
  | rSetEx : String → Nat → Ev
  | rIncr : String → Ev
  | rExpire : String → Nat → Ev
  | rDel : String → Ev
  | sleep : Nat → Ev
  | pyAttempt : Nat → Ev
  | apifyAttempt : Nat → Ev
deriving DecidableEq, Repr

/-- `normalize_keyword` (services.py 144-158): lowercase, replace every
character outside `[a-z0-9\s]` by a space, collapse whitespace runs to a
single underscore, strip underscores from both ends. -/
def pyIsSpace (c : Char) : Bool :=
  c = ' ' ∨ c = '\t' ∨ c = '\n' ∨ c = '\r' ∨ c = '\x0b' ∨ c = '\x0c'

def isKept (c : Char) : Bool :=
  ('a' ≤ c ∧ c ≤ 'z') ∨ ('0' ≤ c ∧ c ≤ '9')

/-- Collapse maximal whitespace runs to a single `_` (the `re.sub(r'\s+','_',...)`
step); the boolean records whether the previous character was whitespace. -/
def collapseWs : List Char → Bool → List Char
  | [], _ => []
  | c :: rest, prevWs =>
    if pyIsSpace c then
      if prevWs then collapseWs rest true
      else '_' :: collapseWs rest true
    else c :: collapseWs rest false

def normalize_keyword (raw : String) : String :=
  let lowered := raw.data.map Char.toLower
  let spaced := lowered.map fun c => if isKept c then c else ' '
  let joined := collapseWs spaced false
  let stripped := (joined.dropWhile (· = '_')).reverse.dropWhile (· = '_')
  String.mk stripped.reverse

def cacheKeyOf (normalized : String) : String := "trend:" ++ normalized

def lockKeyOf (normalized : String) : String := "lock:" ++ normalized

def usageKeyOf (dateStr : String) : String := "usage:global:" ++ dateStr

/-- A Redis wrapper call starting at attempt slot `t` succeeds iff one of
its three slots (attempt, retry after 1s, retry after 1s) is available. -/
def tryOp (avail : Nat → Bool) (t : Nat) : Bool :=
  avail t || avail (t + 1) || avail (t + 2)

/-- In-flight call state: the store, the next free attempt slot, and the
event trace so far. -/
structure RState where
  store : Store
  tick : Nat
  trace : List Ev
deriving Repr

/-- Perform one Redis wrapper call: reserve its three attempt slots, record
its event, report whether it got through. -/
def opStep (avail : Nat → Bool) (ev : Ev) (s : RState) : Bool × RState :=
  (tryOp avail s.tick, { s with tick := s.tick + 3, trace := s.trace ++ [ev] })

/-- tenacity `@retry(stop_after_attempt(n+1), wait_fixed(waitS), reraise=True)`
with the default retry predicate (retry on any exception): `n` is the number
of retries remaining after the current attempt `i`; on the last attempt the
exception is re-raised.  Returns the result together with the attempt/sleep
events produced. -/
def retryLoop (attempt : Nat → Except Err α) (mkEv : Nat → Ev) (waitS : Nat) :
    Nat → Nat → Except Err α × List Ev
  | 0, i => (attempt i, [mkEv i])
  | n + 1, i =>
    match attempt i with
    | .ok a => (.ok a, [mkEv i])
    | .error _ =>
      let rest := retryLoop attempt mkEv waitS n (i + 1)
      (rest.1, mkEv i :: Ev.sleep (waitS * 1000) :: rest.2)

/-- What the world did on one pytrends attempt (services.py 161-225): the
`interest_over_time` frame arrived with the keyword column and rows
(`ok`, with the extracted rows and the elapsed duration), arrived empty,
arrived without the keyword column, or some exception occurred. -/
inductive PyOutcome where
  | ok : List Point → Nat → PyOutcome
  | emptyDf : PyOutcome
  | missingKeyword : PyOutcome
  | exn : PyOutcome

/-- One body execution of `fetch_from_pytrends`: every failure mode —
including an empty frame — is caught and re-raised as
`PyTrendsUnavailableException`; on success the stats dict is
`{duration_ms, compute_units: 0, source: "pytrends"}`. -/
def pytrends_attempt (o : PyOutcome) : Except Err (List Point × Stats) :=
  match o with
  | .ok rows d => .ok (rows, ⟨d, 0, some "pytrends"⟩)
  | .emptyDf => .error .pytrendsUnavailable
  | .missingKeyword => .error .pytrendsUnavailable
  | .exn => .error .pytrendsUnavailable

/-- `fetch_from_pytrends` (services.py 161): `@retry(stop_after_attempt(2),
wait_fixed(3), reraise=True)` around one attempt. -/
def fetch_from_pytrends (pyO : Nat → PyOutcome) :
    Except Err (List Point × Stats) × List Ev :=
  retryLoop (fun i => pytrends_attempt (pyO i)) Ev.pyAttempt 3 1 0

/-- What the world did on one Apify attempt (services.py 228-293): the actor
call and dataset iteration succeeded, yielding the extracted timeline rows
(possibly zero of them) and the run stats, or some exception was raised. -/
inductive ApifyOutcome where
  | ok : List Point → Nat → Nat → ApifyOutcome
  | exn : ApifyOutcome

/-- One body execution of `fetch_from_apify`: an empty extracted timeline
raises `DataNotFoundException`; otherwise the rows are returned with stats
`{duration_ms, compute_units}` (no `source` key). -/
def apify_attempt (o : ApifyOutcome) : Except Err (List Point × Stats) :=
  match o with
  | .ok [] _ _ => .error .dataNotFound
  | .ok rows d cu => .ok (rows, ⟨d, cu, none⟩)
  | .exn => .error .apifyFailure

/-- `fetch_from_apify` (services.py 228): `@retry(stop_after_attempt(3),
wait_fixed(2), reraise=True)` around one attempt; the decorator has no
`retry=` filter, so tenacity's default applies and EVERY exception —
`DataNotFoundException` included — is retried within the 3-attempt budget. -/
def fetch_from_apify (apO : Nat → ApifyOutcome) :
    Except Err (List Point × Stats) × List Ev :=
  retryLoop (fun i => apify_attempt (apO i)) Ev.apifyAttempt 2 2 0

/-- `process_data` at the coordinator's level of abstraction (see the
`Processed` doc comment): empty input raises `DataValidationException`,
rows with negative values are dropped, nothing valid left raises
`DataValidationException`, otherwise the aggregate is produced. -/
def process_data (rows : List Point) : Except Err Processed :=
  if rows.isEmpty then .error .dataValidation
  else
    let valid := rows.filter fun p => 0 ≤ p.value
    if valid.isEmpty then .error .dataValidation
    else .ok ⟨valid⟩

/-- What a waiter's `redis_get_with_retry(cache_key)` observed on one poll,
while the lock holder (another process) may be writing concurrently: the
wrapper re-raised a Redis error (`continue`), the key was absent, the bytes
failed `json.loads` (`continue`), or a decodable entry was present. -/
inductive PollObs where
  | unavailable : PollObs
  | absent : PollObs
  | corrupt : PollObs
  | entry : CacheEntry → PollObs

/-- Everything a single `get_prediction_swr` call depends on besides the
initial store: the raw keyword, `settings.GLOBAL_RATE_LIMIT`, today's date
string, `time.time()` in seconds, store connectivity, the two provider
oracles, and the waiter's poll observations. -/
structure Ctx where
  keyword : String
  limit : Nat
  dateStr : String
  now : Nat
  avail : Nat → Bool
  pyO : Nat → PyOutcome
  apO : Nat → ApifyOutcome
  pollView : Nat → PollObs

def Ctx.normalized (c : Ctx) : String := normalize_keyword c.keyword

def Ctx.cacheKey (c : Ctx) : String := cacheKeyOf c.normalized

def Ctx.lockKey (c : Ctx) : String := lockKeyOf c.normalized

def Ctx.usageKey (c : Ctx) : String := usageKeyOf c.dateStr

/-- The value of `resolve`: `(processed_data, source, stats)` or a raised
exception. -/
abbrev SwrResult := Except Err (Processed × String × Option Stats)

/-- Step 1 (services.py 620-640): read today's counter (absent counts as 0);
at or above the limit raise `HTTPException(429)` — not a Redis error, so it
escapes the surrounding `try` — otherwise INCR then EXPIRE 86400.  The
`except (RedisError, ...)` wraps the whole block: a wrapper that fails after
its retries aborts the rest of the block and the call continues (degraded
mode, fail open). -/
def rateLimitStep (c : Ctx) (s : RState) : Option Err × RState :=
  let r1 := opStep c.avail (Ev.rGet c.usageKey) s
  if r1.1 then
    let current := r1.2.store.usage.getD 0
    if c.limit ≤ current then (some .http429, r1.2)
    else
      let r2 := opStep c.avail (Ev.rIncr c.usageKey) r1.2
      if r2.1 then
        let s3 : RState :=
          { r2.2 with store := { r2.2.store with usage := some (current + 1) } }
        let r3 := opStep c.avail (Ev.rExpire c.usageKey 86400) s3
        (none, r3.2)
      else (none, r2.2)
  else (none, r1.2)

/-- Step 2 (services.py 643-665): read the cache; a decodable entry younger
than 86400s is returned as `("cache_fresh", ...)`; a stale entry, corrupt
bytes, an absent key, or a Redis failure all fall through to the fetch
path. -/
def cacheCheckStep (c : Ctx) (s : RState) :
    Option (Processed × String × Option Stats) × RState :=
  let r1 := opStep c.avail (Ev.rGet c.cacheKey) s
  if r1.1 then
    match r1.2.store.cache with
    | some (.entry e) =>
      if c.now - e.timestamp < 86400 then (some (e.data, "cache_fresh", e.stats), r1.2)
      else (none, r1.2)
    | some .corrupt => (none, r1.2)
    | none => (none, r1.2)
  else (none, r1.2)

/-- Step 3 (services.py 670-676): `SET lock_key "1" NX EX 60`.  `True` means
this caller is the fetcher; an existing key yields `None` (falsy) and the
caller becomes a waiter; a Redis failure sets `lock_acquired = True`
(proceed without locking — fail open). -/
def lockAcquireStep (c : Ctx) (s : RState) : Bool × RState :=
  let r1 := opStep c.avail (Ev.rSetNX c.lockKey 60) s
  if r1.1 then
    if r1.2.store.lock then (false, r1.2)
    else (true, { r1.2 with store := { r1.2.store with lock := true } })
  else (true, r1.2)

/-- Waiter loop (services.py 678-700): up to 10 iterations of
`sleep(0.5)` then a cache read; ANY decodable entry is returned immediately
as `("cache_fresh", ...)` — the loop performs no freshness check — while an
absent key, corrupt bytes, or a Redis failure just continue; an exhausted
budget raises `HTTPException(503)`.  Poll observations come from the
`pollView` oracle (the store is being mutated by the lock holder), so these
reads do not consume `avail` attempt slots. -/
def waiterPolls (c : Ctx) : Nat → Nat → RState → SwrResult × RState
  | _, 0, s => (.error .http503, s)
  | i, n + 1, s =>
    let s1 : RState := { s with trace := s.trace ++ [Ev.sleep 500, Ev.rGet c.cacheKey] }
    match c.pollView i with
    | .entry e => (.ok (e.data, "cache_fresh", e.stats), s1)
    | _ => waiterPolls c (i + 1) n s1

/-- The provider chain run by the lock holder (services.py 706-730):
pytrends (2 attempts, 3s backoff) then `process_data`; only
`PyTrendsUnavailableException` triggers the fallback, which first extends
the lock to 120s best-effort (`EXPIRE`, failure ignored) and then runs
Apify (3 attempts, 2s backoff) followed by `process_data`. -/
def providerChain (c : Ctx) (s : RState) :
    Except Err (Processed × String × Stats) × RState :=
  let py := fetch_from_pytrends c.pyO
  let s1 : RState := { s with trace := s.trace ++ py.2 }
  match py.1 with
  | .ok (rows, st) =>
    (match process_data rows with
     | .ok p => (.ok (p, "pytrends", st), s1)
     | .error e => (.error e, s1))
  | .error _ =>
    let r2 := opStep c.avail (Ev.rExpire c.lockKey 120) s1
    let ap := fetch_from_apify c.apO
    let s3 : RState := { r2.2 with trace := r2.2.trace ++ ap.2 }
    match ap.1 with
    | .ok (rows, st) =>
      (match process_data rows with
       | .ok p => (.ok (p, "apify", st), s3)
       | .error e => (.error e, s3))
    | .error e => (.error e, s3)

/-- The lock holder's fetch (services.py 702-755): run the chain inside
`try ... finally`: on success write the cache entry
`{"timestamp": time.time(), "data":..., "stats":...}` with `SETEX 88200`
(a write failure is logged and the data still returned), on chain failure
propagate the exception; the `finally` block always issues
`DELETE lock_key` (its own Redis failure is logged and swallowed). -/
def fetchAndCache (c : Ctx) (s : RState) : SwrResult × RState :=
  let ch := providerChain c s
  let afterBody : SwrResult × RState :=
    match ch.1 with
    | .ok (p, src, st) =>
      let w := opStep c.avail (Ev.rSetEx c.cacheKey 88200) ch.2
      let s2 : RState :=
        if w.1 then
          { w.2 with store := { w.2.store with
              cache := some (.entry ⟨c.now, p, some st⟩) } }
        else w.2
      (.ok (p, src, some st), s2)
    | .error e => (.error e, ch.2)
  let d := opStep c.avail (Ev.rDel c.lockKey) afterBody.2
  let s3 : RState :=
    if d.1 then { d.2 with store := { d.2.store with lock := false } } else d.2
  (afterBody.1, s3)

/-- `get_prediction_swr` (services.py 600-755): rate-limit gate, cache
check, lock acquisition, then fetch-and-cache or the waiter loop. -/
def get_prediction_swr (c : Ctx) (init : Store) : SwrResult × RState :=
  let s0 : RState := ⟨init, 0, []⟩
  let r1 := rateLimitStep c s0
  match r1.1 with
  | some e => (.error e, r1.2)
  | none =>
    let r2 := cacheCheckStep c r1.2
    match r2.1 with
    | some hit => (.ok hit, r2.2)
    | none =>
      let r3 := lockAcquireStep c r2.2
      if r3.1 then fetchAndCache c r3.2
      else waiterPolls c 0 10 r3.2

/-- The pure value of the provider chain, as a function of the two provider
oracles alone (the chain reads no store state; proved equal to
`providerChain`'s first component below). -/
def chainOutcome (pyO : Nat → PyOutcome) (apO : Nat → ApifyOutcome) :
    Except Err (Processed × String × Stats) :=
  match (fetch_from_pytrends pyO).1 with
  | .ok (rows, st) => (process_data rows).map fun p => (p, "pytrends", st)
  | .error _ =>
    match (fetch_from_apify apO).1 with
    | .ok (rows, st) => (process_data rows).map fun p => (p, "apify", st)
    | .error e => .error e

/-- The events the provider chain appends to the trace. -/
def chainEvs (c : Ctx) : List Ev :=
  match (fetch_from_pytrends c.pyO).1 with
  | .ok _ => (fetch_from_pytrends c.pyO).2
  | .error _ =>
    (fetch_from_pytrends c.pyO).2 ++ Ev.rExpire c.lockKey 120 :: (fetch_from_apify c.apO).2

/-- Attempt slots the provider chain consumes (only the best-effort lock
extension before the fallback talks to the store). -/
def chainTicks (c : Ctx) : Nat :=
  match (fetch_from_pytrends c.pyO).1 with
  | .ok _ => 0
  | .error _ => 3

/-- Events of `n` waiter polls that never observe an entry. -/
def pollEvs (c : Ctx) : Nat → List Ev
  | 0 => []
  | n + 1 => Ev.sleep 500 :: Ev.rGet c.cacheKey :: pollEvs c n

/-- The attempt/sleep events of an Apify retry run whose first success is
attempt `j`. -/
def apifyRetryTrace : Nat → List Ev
  | 0 => [Ev.apifyAttempt 0]
  | n + 1 => apifyRetryTrace n ++ [Ev.sleep 2000, Ev.apifyAttempt (n + 1)]

def isPyAttempt : Ev → Bool
  | .pyAttempt _ => true
  | _ => false

def isApifyAttempt : Ev → Bool
  | .apifyAttempt _ => true
  | _ => false

def countPyAttempts (t : List Ev) : Nat := (t.filter isPyAttempt).length

def countApifyAttempts (t : List Ev) : Nat := (t.filter isApifyAttempt).length

def isLockSet : Ev → Bool
  | .rSetNX _ _ => true
  | _ => false

def countLockSetAttempts (t : List Ev) : Nat := (t.filter isLockSet).length

def exceptIsOk : Except Err (Processed × String × Stats) → Bool
  | .ok _ => true
  | .error _ => false

end Swr

namespace Swr

/-! ### Characterization lemmas for the retry loops -/

lemma fetch_from_pytrends_all_fail (pyO : Nat → PyOutcome)
    (h : ∀ i, pytrends_attempt (pyO i) = .error .pytrendsUnavailable) :
    fetch_from_pytrends pyO =
      (.error .pytrendsUnavailable, [Ev.pyAttempt 0, Ev.sleep 3000, Ev.pyAttempt 1]) := by
  simp [fetch_from_pytrends, retryLoop, h 0, h 1]

lemma fetch_from_pytrends_ok (pyO : Nat → PyOutcome) (v : List Point × Stats)
    (h : pytrends_attempt (pyO 0) = .ok v) :
    fetch_from_pytrends pyO = (.ok v, [Ev.pyAttempt 0]) := by
  simp [fetch_from_pytrends, retryLoop, h]

lemma fetch_from_apify_all_fail (apO : Nat → ApifyOutcome) (aerr : Nat → Err)
    (h : ∀ i, apify_attempt (apO i) = .error (aerr i)) :
    fetch_from_apify apO =
      (.error (aerr 2),
       [Ev.apifyAttempt 0, Ev.sleep 2000, Ev.apifyAttempt 1,
        Ev.sleep 2000, Ev.apifyAttempt 2]) := by
  simp [fetch_from_apify, retryLoop, h 0, h 1, h 2]

lemma fetch_from_apify_first_success (apO : Nat → ApifyOutcome) (aerr : Nat → Err)
    (j : Nat) (v : List Point × Stats) (hj : j < 3)
    (hf : ∀ i, i < j → apify_attempt (apO i) = .error (aerr i))
    (hs : apify_attempt (apO j) = .ok v) :
    fetch_from_apify apO = (.ok v, apifyRetryTrace j) := by
  interval_cases j
  · simp [fetch_from_apify, retryLoop, hs, apifyRetryTrace]
  · simp [fetch_from_apify, retryLoop, hs, hf 0 (by norm_num), apifyRetryTrace]
  · simp [fetch_from_apify, retryLoop, hs, hf 0 (by norm_num), hf 1 (by norm_num),
      apifyRetryTrace]

lemma retryLoop_trace_shape (attempt : Nat → Except Err α) (mkEv : Nat → Ev) (waitS : Nat) :
    ∀ n i, ∀ e ∈ (retryLoop attempt mkEv waitS n i).2,
      (∃ j, e = mkEv j) ∨ ∃ m, e = Ev.sleep m := by
  intro n
  induction n with
  | zero =>
    intro i e he
    simp only [retryLoop, List.mem_singleton] at he
    exact Or.inl ⟨i, he⟩
  | succ n ih =>
    intro i e he
    simp only [retryLoop] at he
    rcases h : attempt i with a | a
    · rw [h] at he
      simp only [List.mem_cons] at he
      rcases he with rfl | rfl | he
      · exact Or.inl ⟨i, rfl⟩
      · exact Or.inr ⟨waitS * 1000, rfl⟩
      · exact ih (i + 1) e he
    · rw [h] at he
      simp only [List.mem_singleton] at he
      exact Or.inl ⟨i, he⟩

/-! ### Characterization lemmas for the orchestrator steps -/

lemma rateLimitStep_allowed (c : Ctx) (s : RState)
    (h0 : c.avail s.tick = true) (h3 : c.avail (s.tick + 3) = true)
    (hU : s.store.usage.getD 0 < c.limit) :
    rateLimitStep c s =
      (none,
       { store := { s.store with usage := some (s.store.usage.getD 0 + 1) },
         tick := s.tick + 9,
         trace := s.trace ++
           [Ev.rGet c.usageKey, Ev.rIncr c.usageKey, Ev.rExpire c.usageKey 86400] }) := by
  simp [rateLimitStep, opStep, tryOp, h0, h3, Nat.not_le.mpr hU]

lemma rateLimitStep_rejected (c : Ctx) (s : RState)
    (h0 : c.avail s.tick = true)
    (hU : c.limit ≤ s.store.usage.getD 0) :
    rateLimitStep c s =
      (some .http429,
       { s with tick := s.tick + 3, trace := s.trace ++ [Ev.rGet c.usageKey] }) := by
  simp [rateLimitStep, opStep, tryOp, h0, hU]

lemma rateLimitStep_down (c : Ctx) (s : RState)
    (hA : ∀ t, c.avail t = false) :
    rateLimitStep c s =
      (none, { s with tick := s.tick + 3, trace := s.trace ++ [Ev.rGet c.usageKey] }) := by
  simp [rateLimitStep, opStep, tryOp, hA]

lemma cacheCheckStep_hit (c : Ctx) (s : RState) (e : CacheEntry)
    (h0 : c.avail s.tick = true)
    (hC : s.store.cache = some (.entry e))
    (hF : c.now - e.timestamp < 86400) :
    cacheCheckStep c s =
      (some (e.data, "cache_fresh", e.stats),
       { s with tick := s.tick + 3, trace := s.trace ++ [Ev.rGet c.cacheKey] }) := by
  simp [cacheCheckStep, opStep, tryOp, h0, hC, hF]

lemma cacheCheckStep_miss (c : Ctx) (s : RState)
    (h0 : c.avail s.tick = true)
    (hNF : ∀ e, s.store.cache = some (.entry e) → 86400 ≤ c.now - e.timestamp) :
    cacheCheckStep c s =
      (none, { s with tick := s.tick + 3, trace := s.trace ++ [Ev.rGet c.cacheKey] }) := by
  rcases hc : s.store.cache with _ | cv
  · simp [cacheCheckStep, opStep, tryOp, h0, hc]
  · cases cv with
    | corrupt => simp [cacheCheckStep, opStep, tryOp, h0, hc]
    | entry e =>
      simp [cacheCheckStep, opStep, tryOp, h0, hc, Nat.not_lt.mpr (hNF e hc)]

lemma cacheCheckStep_down (c : Ctx) (s : RState)
    (hA : ∀ t, c.avail t = false) :
    cacheCheckStep c s =
      (none, { s with tick := s.tick + 3, trace := s.trace ++ [Ev.rGet c.cacheKey] }) := by
  simp [cacheCheckStep, opStep, tryOp, hA]

lemma lockAcquireStep_won (c : Ctx) (s : RState)
    (h0 : c.avail s.tick = true)
    (hL : s.store.lock = false) :
    lockAcquireStep c s =
      (true,
       { store := { s.store with lock := true },
         tick := s.tick + 3,
         trace := s.trace ++ [Ev.rSetNX c.lockKey 60] }) := by
  simp [lockAcquireStep, opStep, tryOp, h0, hL]

lemma lockAcquireStep_lost (c : Ctx) (s : RState)
    (h0 : c.avail s.tick = true)
    (hL : s.store.lock = true) :
    lockAcquireStep c s =
      (false, { s with tick := s.tick + 3, trace := s.trace ++ [Ev.rSetNX c.lockKey 60] }) := by
  simp [lockAcquireStep, opStep, tryOp, h0, hL]

lemma lockAcquireStep_down (c : Ctx) (s : RState)
    (h0 : c.avail s.tick = false)
    (h1 : c.avail (s.tick + 1) = false)
    (h2 : c.avail (s.tick + 2) = false) :
    lockAcquireStep c s =
      (true, { s with tick := s.tick + 3, trace := s.trace ++ [Ev.rSetNX c.lockKey 60] }) := by
  simp [lockAcquireStep, opStep, tryOp, h0, h1, h2]

lemma providerChain_eq (c : Ctx) (s : RState) :
    providerChain c s =
      (chainOutcome c.pyO c.apO,
       { s with tick := s.tick + chainTicks c, trace := s.trace ++ chainEvs c }) := by
  unfold providerChain chainOutcome chainEvs chainTicks
  rcases hpy : (fetch_from_pytrends c.pyO).1 with e | ⟨rows, st⟩
  · rcases hap : (fetch_from_apify c.apO).1 with e2 | ⟨rows2, st2⟩
    · simp [opStep, hpy, hap]
    · rcases hp : process_data rows2 with e3 | p <;>
        simp [opStep, hpy, hap, hp, Except.map]
  · rcases hp : process_data rows with e3 | p <;> simp [hpy, hp, Except.map]

lemma fetchAndCache_fst (c : Ctx) (s : RState) :
    (fetchAndCache c s).1 =
      (chainOutcome c.pyO c.apO).map fun x => (x.1, x.2.1, some x.2.2) := by
  unfold fetchAndCache
  rw [providerChain_eq]
  rcases h : chainOutcome c.pyO c.apO with e | ⟨p, src, st⟩
  · simp [opStep, Except.map]
  · by_cases hw : tryOp c.avail (s.tick + chainTicks c) <;>
      simp [opStep, hw, Except.map]

lemma fetchAndCache_ok (c : Ctx) (s : RState) (p : Processed) (src : String) (st : Stats)
    (hA : ∀ t, c.avail t = true)
    (hC : chainOutcome c.pyO c.apO = .ok (p, src, st)) :
    fetchAndCache c s =
      (.ok (p, src, some st),
       { store := { s.store with
           cache := some (.entry ⟨c.now, p, some st⟩), lock := false },
         tick := s.tick + chainTicks c + 6,
         trace := s.trace ++ chainEvs c ++
           [Ev.rSetEx c.cacheKey 88200, Ev.rDel c.lockKey] }) := by
  unfold fetchAndCache
  rw [providerChain_eq, hC]
  simp [opStep, tryOp, hA]

lemma fetchAndCache_err (c : Ctx) (s : RState) (e : Err)
    (hA : ∀ t, c.avail t = true)
    (hC : chainOutcome c.pyO c.apO = .error e) :
    fetchAndCache c s =
      (.error e,
       { store := { s.store with lock := false },
         tick := s.tick + chainTicks c + 3,
         trace := s.trace ++ chainEvs c ++ [Ev.rDel c.lockKey] }) := by
  unfold fetchAndCache
  rw [providerChain_eq, hC]
  simp [opStep, tryOp, hA]

lemma fetchAndCache_trace (c : Ctx) (s : RState) :
    (fetchAndCache c s).2.trace =
      s.trace ++ chainEvs c ++
        (if exceptIsOk (chainOutcome c.pyO c.apO) then
          [Ev.rSetEx c.cacheKey 88200, Ev.rDel c.lockKey]
         else [Ev.rDel c.lockKey]) := by
  unfold fetchAndCache
  rw [providerChain_eq]
  rcases h : chainOutcome c.pyO c.apO with e | ⟨p, src, st⟩
  · simp only [opStep, exceptIsOk]
    split <;> simp
  · simp only [opStep, exceptIsOk]
    split <;> split <;> simp

lemma fetchAndCache_lock_false (c : Ctx) (s : RState)
    (hA : ∀ t, s.tick ≤ t → c.avail t = true) :
    (fetchAndCache c s).2.store.lock = false := by
  unfold fetchAndCache
  rw [providerChain_eq]
  rcases h : chainOutcome c.pyO c.apO with e | ⟨p, src, st⟩
  · have hd : tryOp c.avail (s.tick + chainTicks c) = true := by
      simp only [tryOp, Bool.or_eq_true]
      exact Or.inl (Or.inl (hA _ (Nat.le_add_right _ _)))
    simp [opStep, hd]
  · by_cases hw : tryOp c.avail (s.tick + chainTicks c)
    · have hd : tryOp c.avail (s.tick + chainTicks c + 3) = true := by
        simp only [tryOp, Bool.or_eq_true]
        exact Or.inl (Or.inl (hA (s.tick + chainTicks c + 3) (by omega)))
      simp [opStep, hw, hd]
    · have hd : tryOp c.avail (s.tick + chainTicks c + 3) = true := by
        simp only [tryOp, Bool.or_eq_true]
        exact Or.inl (Or.inl (hA (s.tick + chainTicks c + 3) (by omega)))
      simp [opStep, hw, hd]

lemma waiterPolls_store (c : Ctx) :
    ∀ n i s, (waiterPolls c i n s).2.store = s.store := by
  intro n
  induction n with
  | zero => intro i s; rfl
  | succ n ih =>
    intro i s
    simp only [waiterPolls]
    rcases c.pollView i with _ | _ | _ | e <;> simp [ih]

lemma waiterPolls_trace_ext (c : Ctx) :
    ∀ n i s, ∃ t, (waiterPolls c i n s).2.trace = s.trace ++ t := by
  intro n
  induction n with
  | zero => intro i s; exact ⟨[], by simp [waiterPolls]⟩
  | succ n ih =>
    intro i s
    simp only [waiterPolls]
    rcases c.pollView i with _ | _ | _ | e
    · obtain ⟨t, ht⟩ := ih (i + 1)
        { s with trace := s.trace ++ [Ev.sleep 500, Ev.rGet c.cacheKey] }
      exact ⟨[Ev.sleep 500, Ev.rGet c.cacheKey] ++ t, by rw [ht]; simp⟩
    · obtain ⟨t, ht⟩ := ih (i + 1)
        { s with trace := s.trace ++ [Ev.sleep 500, Ev.rGet c.cacheKey] }
      exact ⟨[Ev.sleep 500, Ev.rGet c.cacheKey] ++ t, by rw [ht]; simp⟩
    · obtain ⟨t, ht⟩ := ih (i + 1)
        { s with trace := s.trace ++ [Ev.sleep 500, Ev.rGet c.cacheKey] }
      exact ⟨[Ev.sleep 500, Ev.rGet c.cacheKey] ++ t, by rw [ht]; simp⟩
    · exact ⟨[Ev.sleep 500, Ev.rGet c.cacheKey], by simp⟩

lemma waiterPolls_timeout (c : Ctx)
    (h : ∀ j e, c.pollView j ≠ .entry e) :
    ∀ n i s, waiterPolls c i n s =
      (.error .http503, { s with trace := s.trace ++ pollEvs c n }) := by
  intro n
  induction n with
  | zero => intro i s; simp [waiterPolls, pollEvs]
  | succ n ih =>
    intro i s
    simp only [waiterPolls]
    rcases hv : c.pollView i with _ | _ | _ | e
    · rw [ih (i + 1)]; simp [pollEvs]
    · rw [ih (i + 1)]; simp [pollEvs]
    · rw [ih (i + 1)]; simp [pollEvs]
    · exact absurd hv (h i e)

lemma waiterPolls_entry (c : Ctx) (i n : Nat) (s : RState) (e : CacheEntry)
    (h : c.pollView i = .entry e) :
    waiterPolls c i (n + 1) s =
      (.ok (e.data, "cache_fresh", e.stats),
       { s with trace := s.trace ++ [Ev.sleep 500, Ev.rGet c.cacheKey] }) := by
  simp [waiterPolls, h]

/-! ### Frame and classification lemmas -/

lemma fetchAndCache_usage (c : Ctx) (s : RState) :
    (fetchAndCache c s).2.store.usage = s.store.usage := by
  unfold fetchAndCache
  rw [providerChain_eq]
  rcases h : chainOutcome c.pyO c.apO with e | ⟨p, src, st⟩
  · simp only [opStep]
    split <;> simp
  · simp only [opStep]
    split <;> split <;> simp

lemma retryLoop_error (attempt : Nat → Except Err α) (mkEv : Nat → Ev) (waitS : Nat) :
    ∀ n i e, (retryLoop attempt mkEv waitS n i).1 = .error e →
      ∃ j, attempt j = .error e := by
  intro n
  induction n with
  | zero =>
    intro i e h
    simp only [retryLoop] at h
    exact ⟨i, h⟩
  | succ n ih =>
    intro i e h
    simp only [retryLoop] at h
    rcases ha : attempt i with a | a
    · rw [ha] at h
      exact ih (i + 1) e h
    · rw [ha] at h
      exact absurd h (by simp)

lemma apify_attempt_error (o : ApifyOutcome) (e : Err)
    (h : apify_attempt o = .error e) :
    e = .dataNotFound ∨ e = .apifyFailure := by
  cases o with
  | exn => simp [apify_attempt] at h; exact Or.inr h.symm
  | ok rows d cu =>
    cases rows with
    | nil => simp [apify_attempt] at h; exact Or.inl h.symm
    | cons a l => simp [apify_attempt] at h

lemma pytrends_attempt_error (o : PyOutcome) (e : Err)
    (h : pytrends_attempt (o) = .error e) :
    e = .pytrendsUnavailable := by
  cases o <;> simp [pytrends_attempt] at h <;> try exact h.symm

lemma process_data_error (rows : List Point) (e : Err)
    (h : process_data rows = .error e) :
    e = .dataValidation := by
  unfold process_data at h
  rcases rows with _ | ⟨a, l⟩
  · simp at h; exact h.symm
  · simp only [List.isEmpty_cons] at h
    by_cases hv : ((a :: l).filter fun p => 0 ≤ p.value).isEmpty <;> simp [hv] at h
    exact h.symm

lemma chainOutcome_error (pyO : Nat → PyOutcome) (apO : Nat → ApifyOutcome) (e : Err)
    (h : chainOutcome pyO apO = .error e) :
    e = .dataValidation ∨ e = .dataNotFound ∨ e = .apifyFailure := by
  unfold chainOutcome at h
  rcases hpy : (fetch_from_pytrends pyO).1 with e1 | ⟨rows, st⟩
  · rw [hpy] at h
    dsimp only at h
    rcases hap : (fetch_from_apify apO).1 with e2 | ⟨rows2, st2⟩
    · rw [hap] at h
      dsimp only at h
      obtain rfl : e2 = e := by simpa using h
      obtain ⟨j, hj⟩ := retryLoop_error _ _ _ _ _ _ hap
      rcases apify_attempt_error _ _ hj with h1 | h1
      · exact Or.inr (Or.inl h1)
      · exact Or.inr (Or.inr h1)
    · rw [hap] at h
      dsimp only at h
      rcases hp : process_data rows2 with e3 | p
      · rw [hp] at h
        obtain rfl : e3 = e := by simpa [Except.map] using h
        exact Or.inl (process_data_error _ _ hp)
      · rw [hp] at h; simp [Except.map] at h
  · rw [hpy] at h
    dsimp only at h
    rcases hp : process_data rows with e3 | p
    · rw [hp] at h
      obtain rfl : e3 = e := by simpa [Except.map] using h
      exact Or.inl (process_data_error _ _ hp)
    · rw [hp] at h; simp [Except.map] at h

lemma chainOutcome_all_fail (pyO : Nat → PyOutcome) (apO : Nat → ApifyOutcome)
    (aerr : Nat → Err)
    (hPy : ∀ i, pytrends_attempt (pyO i) = .error .pytrendsUnavailable)
    (hAp : ∀ i, apify_attempt (apO i) = .error (aerr i)) :
    chainOutcome pyO apO = .error (aerr 2) := by
  rw [chainOutcome, fetch_from_pytrends_all_fail pyO hPy,
    fetch_from_apify_all_fail apO aerr hAp]

lemma chainEvs_all_fail (c : Ctx) (aerr : Nat → Err)
    (hPy : ∀ i, pytrends_attempt (c.pyO i) = .error .pytrendsUnavailable)
    (hAp : ∀ i, apify_attempt (c.apO i) = .error (aerr i)) :
    chainEvs c =
      [Ev.pyAttempt 0, Ev.sleep 3000, Ev.pyAttempt 1, Ev.rExpire c.lockKey 120,
       Ev.apifyAttempt 0, Ev.sleep 2000, Ev.apifyAttempt 1,
       Ev.sleep 2000, Ev.apifyAttempt 2] := by
  rw [chainEvs, fetch_from_pytrends_all_fail _ hPy,
    fetch_from_apify_all_fail _ aerr hAp]
  simp

lemma chainOutcome_fallback_success (pyO : Nat → PyOutcome) (apO : Nat → ApifyOutcome)
    (aerr : Nat → Err) (j : Nat) (rows : List Point) (st : Stats) (p : Processed)
    (hPy : ∀ i, pytrends_attempt (pyO i) = .error .pytrendsUnavailable)
    (hj : j < 3)
    (hApF : ∀ i, i < j → apify_attempt (apO i) = .error (aerr i))
    (hApS : apify_attempt (apO j) = .ok (rows, st))
    (hP : process_data rows = .ok p) :
    chainOutcome pyO apO = .ok (p, "apify", st) := by
  rw [chainOutcome, fetch_from_pytrends_all_fail pyO hPy,
    fetch_from_apify_first_success apO aerr j (rows, st) hj hApF hApS]
  simp [hP, Except.map]

lemma chainEvs_fallback (c : Ctx) (aerr : Nat → Err) (j : Nat)
    (rows : List Point) (st : Stats)
    (hPy : ∀ i, pytrends_attempt (c.pyO i) = .error .pytrendsUnavailable)
    (hj : j < 3)
    (hApF : ∀ i, i < j → apify_attempt (c.apO i) = .error (aerr i))
    (hApS : apify_attempt (c.apO j) = .ok (rows, st)) :
    chainEvs c =
      [Ev.pyAttempt 0, Ev.sleep 3000, Ev.pyAttempt 1, Ev.rExpire c.lockKey 120] ++
        apifyRetryTrace j := by
  rw [chainEvs, fetch_from_pytrends_all_fail _ hPy,
    fetch_from_apify_first_success c.apO aerr j (rows, st) hj hApF hApS]
  simp

lemma chainEvs_shape (c : Ctx) :
    ∀ e ∈ chainEvs c,
      (∃ j, e = Ev.pyAttempt j) ∨ (∃ j, e = Ev.apifyAttempt j) ∨
      (∃ m, e = Ev.sleep m) ∨ e = Ev.rExpire c.lockKey 120 := by
  intro e he
  unfold chainEvs at he
  rcases hpy : (fetch_from_pytrends c.pyO).1 with e1 | v
  · rw [hpy] at he
    rcases List.mem_append.mp he with h | h
    · rcases retryLoop_trace_shape _ _ _ _ _ _ h with ⟨j, rfl⟩ | ⟨m, rfl⟩
      · exact Or.inl ⟨j, rfl⟩
      · exact Or.inr (Or.inr (Or.inl ⟨m, rfl⟩))
    · rcases List.mem_cons.mp h with rfl | h
      · exact Or.inr (Or.inr (Or.inr rfl))
      · rcases retryLoop_trace_shape _ _ _ _ _ _ h with ⟨j, rfl⟩ | ⟨m, rfl⟩
        · exact Or.inr (Or.inl ⟨j, rfl⟩)
        · exact Or.inr (Or.inr (Or.inl ⟨m, rfl⟩))
  · rw [hpy] at he
    rcases retryLoop_trace_shape _ _ _ _ _ _ he with ⟨j, rfl⟩ | ⟨m, rfl⟩
    · exact Or.inl ⟨j, rfl⟩
    · exact Or.inr (Or.inr (Or.inl ⟨m, rfl⟩))

lemma countPy_apifyRetryTrace (j : Nat) :
    countPyAttempts (apifyRetryTrace j) = 0 := by
  induction j with
  | zero => rfl
  | succ j ih =>
    simp only [apifyRetryTrace, countPyAttempts, List.filter_append, List.length_append]
    simp only [countPyAttempts] at ih
    simp [ih, isPyAttempt]

lemma countPyAttempts_append (a b : List Ev) :
    countPyAttempts (a ++ b) = countPyAttempts a + countPyAttempts b := by
  simp [countPyAttempts, List.filter_append]

lemma countApifyAttempts_append (a b : List Ev) :
    countApifyAttempts (a ++ b) = countApifyAttempts a + countApifyAttempts b := by
  simp [countApifyAttempts, List.filter_append]

lemma retryLoop_trace_cons (attempt : Nat → Except Err α) (mkEv : Nat → Ev)
    (waitS n i : Nat) :
    ∃ r, (retryLoop attempt mkEv waitS n i).2 = mkEv i :: r := by
  cases n with
  | zero => exact ⟨[], rfl⟩
  | succ n =>
    rcases h : attempt i with e | a
    · exact ⟨Ev.sleep (waitS * 1000) :: (retryLoop attempt mkEv waitS n (i + 1)).2,
        by simp [retryLoop, h]⟩
    · exact ⟨[], by simp [retryLoop, h]⟩

lemma pyAttempt0_mem_chainEvs (c : Ctx) : Ev.pyAttempt 0 ∈ chainEvs c := by
  unfold chainEvs
  obtain ⟨r, hr⟩ := retryLoop_trace_cons (fun i => pytrends_attempt (c.pyO i))
    Ev.pyAttempt 3 1 0
  rcases hpy : (fetch_from_pytrends c.pyO).1 with e | v
  · rw [show (fetch_from_pytrends c.pyO).2 = Ev.pyAttempt 0 :: r from hr]
    simp
  · rw [show (fetch_from_pytrends c.pyO).2 = Ev.pyAttempt 0 :: r from hr]
    simp

/-! ### Path equations for `get_prediction_swr` -/

lemma swr_rejected_eq (c : Ctx) (init : Store)
    (hA : ∀ t, c.avail t = true)
    (hU : c.limit ≤ init.usage.getD 0) :
    get_prediction_swr c init =
      (.error .http429, ⟨init, 3, [Ev.rGet c.usageKey]⟩) := by
  simp [get_prediction_swr, rateLimitStep, opStep, tryOp, hA, hU]

lemma swr_fresh_eq (c : Ctx) (init : Store) (e : CacheEntry)
    (hA : ∀ t, c.avail t = true)
    (hU : init.usage.getD 0 < c.limit)
    (hC : init.cache = some (.entry e))
    (hF : c.now - e.timestamp < 86400) :
    get_prediction_swr c init =
      (.ok (e.data, "cache_fresh", e.stats),
       ⟨⟨init.cache, init.lock, some (init.usage.getD 0 + 1)⟩, 12,
        [Ev.rGet c.usageKey, Ev.rIncr c.usageKey, Ev.rExpire c.usageKey 86400,
         Ev.rGet c.cacheKey]⟩) := by
  simp [get_prediction_swr, rateLimitStep, cacheCheckStep, opStep, tryOp, hA,
    Nat.not_le.mpr hU, hC, hF]

lemma swr_fetcher_eq (c : Ctx) (init : Store)
    (hA : ∀ t, c.avail t = true)
    (hU : init.usage.getD 0 < c.limit)
    (hNF : ∀ e, init.cache = some (.entry e) → 86400 ≤ c.now - e.timestamp)
    (hL : init.lock = false) :
    get_prediction_swr c init =
      fetchAndCache c
        ⟨⟨init.cache, true, some (init.usage.getD 0 + 1)⟩, 15,
         [Ev.rGet c.usageKey, Ev.rIncr c.usageKey, Ev.rExpire c.usageKey 86400,
          Ev.rGet c.cacheKey, Ev.rSetNX c.lockKey 60]⟩ := by
  rcases hc : init.cache with _ | cv
  · simp [get_prediction_swr, rateLimitStep, cacheCheckStep, lockAcquireStep,
      opStep, tryOp, hA, Nat.not_le.mpr hU, hc, hL]
  · cases cv with
    | corrupt =>
      simp [get_prediction_swr, rateLimitStep, cacheCheckStep, lockAcquireStep,
        opStep, tryOp, hA, Nat.not_le.mpr hU, hc, hL]
    | entry e =>
      simp [get_prediction_swr, rateLimitStep, cacheCheckStep, lockAcquireStep,
        opStep, tryOp, hA, Nat.not_le.mpr hU, hc, hL, Nat.not_lt.mpr (hNF e hc)]

lemma swr_waiter_eq (c : Ctx) (init : Store)
    (hA : ∀ t, c.avail t = true)
    (hU : init.usage.getD 0 < c.limit)
    (hNF : ∀ e, init.cache = some (.entry e) → 86400 ≤ c.now - e.timestamp)
    (hL : init.lock = true) :
    get_prediction_swr c init =
      waiterPolls c 0 10
        ⟨⟨init.cache, true, some (init.usage.getD 0 + 1)⟩, 15,
         [Ev.rGet c.usageKey, Ev.rIncr c.usageKey, Ev.rExpire c.usageKey 86400,
          Ev.rGet c.cacheKey, Ev.rSetNX c.lockKey 60]⟩ := by
  rcases hc : init.cache with _ | cv
  · simp [get_prediction_swr, rateLimitStep, cacheCheckStep, lockAcquireStep,
      opStep, tryOp, hA, Nat.not_le.mpr hU, hc, hL]
  · cases cv with
    | corrupt =>
      simp [get_prediction_swr, rateLimitStep, cacheCheckStep, lockAcquireStep,
        opStep, tryOp, hA, Nat.not_le.mpr hU, hc, hL]
    | entry e =>
      simp [get_prediction_swr, rateLimitStep, cacheCheckStep, lockAcquireStep,
        opStep, tryOp, hA, Nat.not_le.mpr hU, hc, hL, Nat.not_lt.mpr (hNF e hc)]

/-! ### Claims -/

/-- C3, counterexample: a call served from a fresh cache entry does NOT
leave the usage counter unchanged — with the store available, a fresh
entry in cache and the counter at 0 (< limit), the call returns the
cached data tagged `cache_fresh` yet the counter afterwards is 1, because
`get_prediction_swr` runs the rate-limit gate (Step 1) before the cache
check (Step 2). -/
theorem c3_counterexample :
    (get_prediction_swr
        { keyword := "k", limit := 500, dateStr := "2026-10-12", now := 100,
          avail := fun _ => true, pyO := fun _ => .exn, apO := fun _ => .exn,
          pollView := fun _ => .absent }
        ⟨some (.entry ⟨0, ⟨[⟨"d", 5⟩]⟩, none⟩), false, some 0⟩).1 =
      .ok (⟨[⟨"d", 5⟩]⟩, "cache_fresh", none) ∧
    (get_prediction_swr
        { keyword := "k", limit := 500, dateStr := "2026-10-12", now := 100,
          avail := fun _ => true, pyO := fun _ => .exn, apO := fun _ => .exn,
          pollView := fun _ => .absent }
        ⟨some (.entry ⟨0, ⟨[⟨"d", 5⟩]⟩, none⟩), false, some 0⟩).2.store.usage =
      some 1 := by
  exact ⟨rfl, rfl⟩

/-- C3, amended: the orchestrator consults the rate limiter BEFORE the
cache, so the global counter is incremented once per call that passes the
gate — including calls served from a fresh cache entry.  With the store
available and the counter below the limit, a fresh-hit call returns the
cached entry and leaves the counter at exactly one more than before. -/
theorem c3_fresh_hit_increments_counter (c : Ctx) (init : Store) (e : CacheEntry)
    (hA : ∀ t, c.avail t = true)
    (hU : init.usage.getD 0 < c.limit)
    (hC : init.cache = some (.entry e))
    (hF : c.now - e.timestamp < 86400) :
    (get_prediction_swr c init).1 = .ok (e.data, "cache_fresh", e.stats) ∧
    (get_prediction_swr c init).2.store.usage = some (init.usage.getD 0 + 1) := by
  have h1 := rateLimitStep_allowed c ⟨init, 0, []⟩ (hA 0) (hA 3) hU
  have h2 := cacheCheckStep_hit c
      ⟨⟨init.cache, init.lock, some (init.usage.getD 0 + 1)⟩, 9,
        [Ev.rGet c.usageKey, Ev.rIncr c.usageKey, Ev.rExpire c.usageKey 86400]⟩
      e (hA 9) hC hF
  simp only [get_prediction_swr, h1, Nat.zero_add, List.nil_append, h2]
  simp

/-- C3 witness. -/
theorem c3_fresh_hit_increments_counter_witness :
    (get_prediction_swr
        { keyword := "k", limit := 500, dateStr := "2026-10-12", now := 100,
          avail := fun _ => true, pyO := fun _ => .exn, apO := fun _ => .exn,
          pollView := fun _ => .absent }
        ⟨some (.entry ⟨0, ⟨[⟨"d", 5⟩]⟩, none⟩), false, some 7⟩).1 =
      .ok (⟨[⟨"d", 5⟩]⟩, "cache_fresh", none) ∧
    (get_prediction_swr
        { keyword := "k", limit := 500, dateStr := "2026-10-12", now := 100,
          avail := fun _ => true, pyO := fun _ => .exn, apO := fun _ => .exn,
          pollView := fun _ => .absent }
        ⟨some (.entry ⟨0, ⟨[⟨"d", 5⟩]⟩, none⟩), false, some 7⟩).2.store.usage =
      some 8 :=
  c3_fresh_hit_increments_counter _ _ ⟨0, ⟨[⟨"d", 5⟩]⟩, none⟩
    (fun _ => rfl) (by decide) rfl (by decide)

lemma waiterPolls_firstEntry (c : Ctx) (s : RState) (e : CacheEntry)
    (h : c.pollView 0 = .entry e) :
    waiterPolls c 0 10 s =
      (.ok (e.data, "cache_fresh", e.stats),
       { s with trace := s.trace ++ [Ev.sleep 500, Ev.rGet c.cacheKey] }) := by
  simp [waiterPolls, h]

/-- C4: with the store available, a call arriving with the day's counter at
or above `GLOBAL_RATE_LIMIT` is rejected with `HTTPException(429)` and the
whole store (counter included) is left untouched; a call arriving below the
limit has the counter incremented by exactly 1 and its 24h expiry
set/refreshed (`EXPIRE usage_key 86400` appears in the call's trace),
whatever happens afterwards.  Hence after exactly `GLOBAL_RATE_LIMIT`
allowed calls the next call is rejected without incrementing further. -/
theorem c4_quota_enforcement (c : Ctx) (init : Store)
    (hA : ∀ t, c.avail t = true) :
    (c.limit ≤ init.usage.getD 0 →
      (get_prediction_swr c init).1 = .error .http429 ∧
      (get_prediction_swr c init).2.store = init) ∧
    (init.usage.getD 0 < c.limit →
      (get_prediction_swr c init).2.store.usage = some (init.usage.getD 0 + 1) ∧
      Ev.rExpire c.usageKey 86400 ∈ (get_prediction_swr c init).2.trace) := by
  constructor
  · intro hU
    rw [swr_rejected_eq c init hA hU]
    exact ⟨rfl, rfl⟩
  · intro hU
    by_cases hf : ∃ e, init.cache = some (.entry e) ∧ c.now - e.timestamp < 86400
    · obtain ⟨e, hC, hF⟩ := hf
      rw [swr_fresh_eq c init e hA hU hC hF]
      exact ⟨rfl, by simp⟩
    · push_neg at hf
      cases hl : init.lock with
      | false =>
        rw [swr_fetcher_eq c init hA hU hf hl]
        constructor
        · rw [fetchAndCache_usage]
        · rw [fetchAndCache_trace]
          simp
      | true =>
        rw [swr_waiter_eq c init hA hU hf hl]
        constructor
        · rw [waiterPolls_store]
        · obtain ⟨t, ht⟩ := waiterPolls_trace_ext c 10 0
            ⟨⟨init.cache, true, some (init.usage.getD 0 + 1)⟩, 15,
             [Ev.rGet c.usageKey, Ev.rIncr c.usageKey, Ev.rExpire c.usageKey 86400,
              Ev.rGet c.cacheKey, Ev.rSetNX c.lockKey 60]⟩
          rw [ht]
          simp

/-- C4 witness: at the limit (500/500) the call is a 429 and the store is
unchanged; below it (499/500) the counter becomes 500 and the expiry was
refreshed. -/
theorem c4_quota_enforcement_witness :
    ((get_prediction_swr
        { keyword := "k", limit := 500, dateStr := "2026-10-12", now := 100,
          avail := fun _ => true, pyO := fun _ => .exn, apO := fun _ => .exn,
          pollView := fun _ => .absent }
        ⟨none, false, some 500⟩).1 = .error .http429 ∧
      (get_prediction_swr
        { keyword := "k", limit := 500, dateStr := "2026-10-12", now := 100,
          avail := fun _ => true, pyO := fun _ => .exn, apO := fun _ => .exn,
          pollView := fun _ => .absent }
        ⟨none, false, some 500⟩).2.store = ⟨none, false, some 500⟩) ∧
    ((get_prediction_swr
        { keyword := "k", limit := 500, dateStr := "2026-10-12", now := 100,
          avail := fun _ => true, pyO := fun _ => .exn, apO := fun _ => .exn,
          pollView := fun _ => .absent }
        ⟨none, false, some 499⟩).2.store.usage = some 500 ∧
      Ev.rExpire (Ctx.usageKey
        { keyword := "k", limit := 500, dateStr := "2026-10-12", now := 100,
          avail := fun _ => true, pyO := fun _ => .exn, apO := fun _ => .exn,
          pollView := fun _ => .absent }) 86400 ∈
        (get_prediction_swr
          { keyword := "k", limit := 500, dateStr := "2026-10-12", now := 100,
            avail := fun _ => true, pyO := fun _ => .exn, apO := fun _ => .exn,
            pollView := fun _ => .absent }
          ⟨none, false, some 499⟩).2.trace) :=
  ⟨(c4_quota_enforcement _ ⟨none, false, some 500⟩ (fun _ => rfl)).1 (by decide),
   (c4_quota_enforcement _ ⟨none, false, some 499⟩ (fun _ => rfl)).2 (by decide)⟩

/-- C2, counterexample: a stale entry (age 87000s ≥ FRESH_TTL = 86400s)
observed by a waiter during polling IS returned to the waiter (tagged
`cache_fresh`), because the waiter loop returns any decodable entry with no
freshness check. -/
theorem c2_counterexample :
    86400 ≤ 87000 - (0 : Nat) ∧
    (get_prediction_swr
        { keyword := "k", limit := 500, dateStr := "2026-10-12", now := 87000,
          avail := fun _ => true, pyO := fun _ => .exn, apO := fun _ => .exn,
          pollView := fun _ => .entry ⟨0, ⟨[⟨"d", 5⟩]⟩, none⟩ }
        ⟨some (.entry ⟨0, ⟨[⟨"d", 5⟩]⟩, none⟩), true, some 0⟩).1 =
      .ok (⟨[⟨"d", 5⟩]⟩, "cache_fresh", none) := by
  exact ⟨by decide, rfl⟩

/-- C2, amended: a waiter returns the FIRST decodable cache entry it
observes while polling, regardless of the entry's age — the poll loop has
no freshness check, so a stale entry is returned just like a fresh one
(and tagged `cache_fresh`). -/
theorem c2_waiter_returns_any_entry (c : Ctx) (init : Store) (e : CacheEntry)
    (hA : ∀ t, c.avail t = true)
    (hU : init.usage.getD 0 < c.limit)
    (hNF : ∀ e2, init.cache = some (.entry e2) → 86400 ≤ c.now - e2.timestamp)
    (hL : init.lock = true)
    (hP : c.pollView 0 = .entry e) :
    (get_prediction_swr c init).1 = .ok (e.data, "cache_fresh", e.stats) := by
  rw [swr_waiter_eq c init hA hU hNF hL,
    waiterPolls_firstEntry c
      ⟨⟨init.cache, true, some (init.usage.getD 0 + 1)⟩, 15,
       [Ev.rGet c.usageKey, Ev.rIncr c.usageKey, Ev.rExpire c.usageKey 86400,
        Ev.rGet c.cacheKey, Ev.rSetNX c.lockKey 60]⟩
      e hP]

/-- C2 witness: a stale entry (age 87000s ≥ 86400s) is what the waiter
gets back. -/
theorem c2_waiter_returns_any_entry_witness :
    86400 ≤ 87000 - (0 : Nat) ∧
    (get_prediction_swr
        { keyword := "k", limit := 500, dateStr := "2026-10-12", now := 87000,
          avail := fun _ => true, pyO := fun _ => .exn, apO := fun _ => .exn,
          pollView := fun _ => .entry ⟨0, ⟨[⟨"d", 6⟩]⟩, none⟩ }
        ⟨none, true, some 3⟩).1 = .ok (⟨[⟨"d", 6⟩]⟩, "cache_fresh", none) :=
  ⟨by decide,
   c2_waiter_returns_any_entry _ ⟨none, true, some 3⟩ ⟨0, ⟨[⟨"d", 6⟩]⟩, none⟩
     (fun _ => rfl) (by decide) (fun _ h => by cases h) rfl rfl⟩

/-- C1: if the caller acquires the lock and the provider chain then fails
(primary budget of 2 and secondary budget of 3 both exhausted), the last
provider error is propagated to the caller, the lock `lock:<normalized>`
is deleted before the call returns, and the cache entry `trend:<normalized>`
is left exactly as it was before the call — failures are never cached. -/
theorem c1_failure_never_cached (c : Ctx) (init : Store) (aerr : Nat → Err)
    (hA : ∀ t, c.avail t = true)
    (hU : init.usage.getD 0 < c.limit)
    (hNF : ∀ e, init.cache = some (.entry e) → 86400 ≤ c.now - e.timestamp)
    (hL : init.lock = false)
    (hPy : ∀ i, pytrends_attempt (c.pyO i) = .error .pytrendsUnavailable)
    (hAp : ∀ i, apify_attempt (c.apO i) = .error (aerr i)) :
    (get_prediction_swr c init).1 = .error (aerr 2) ∧
    (get_prediction_swr c init).2.store.cache = init.cache ∧
    (get_prediction_swr c init).2.store.lock = false := by
  rw [swr_fetcher_eq c init hA hU hNF hL,
    fetchAndCache_err c
      ⟨⟨init.cache, true, some (init.usage.getD 0 + 1)⟩, 15,
       [Ev.rGet c.usageKey, Ev.rIncr c.usageKey, Ev.rExpire c.usageKey 86400,
        Ev.rGet c.cacheKey, Ev.rSetNX c.lockKey 60]⟩
      (aerr 2) hA (chainOutcome_all_fail c.pyO c.apO aerr hPy hAp)]
  exact ⟨rfl, rfl, rfl⟩

/-- C1 witness: with every pytrends attempt failing and every Apify attempt
raising some other client error, a prior stale cache entry survives
unchanged, the lock is gone, and the Apify error is surfaced. -/
theorem c1_failure_never_cached_witness :
    (get_prediction_swr
        { keyword := "k", limit := 500, dateStr := "2026-10-12", now := 90000,
          avail := fun _ => true, pyO := fun _ => .exn, apO := fun _ => .exn,
          pollView := fun _ => .absent }
        ⟨some (.entry ⟨0, ⟨[⟨"d", 5⟩]⟩, none⟩), false, some 0⟩).1 =
      .error .apifyFailure ∧
    (get_prediction_swr
        { keyword := "k", limit := 500, dateStr := "2026-10-12", now := 90000,
          avail := fun _ => true, pyO := fun _ => .exn, apO := fun _ => .exn,
          pollView := fun _ => .absent }
        ⟨some (.entry ⟨0, ⟨[⟨"d", 5⟩]⟩, none⟩), false, some 0⟩).2.store.cache =
      some (.entry ⟨0, ⟨[⟨"d", 5⟩]⟩, none⟩) ∧
    (get_prediction_swr
        { keyword := "k", limit := 500, dateStr := "2026-10-12", now := 90000,
          avail := fun _ => true, pyO := fun _ => .exn, apO := fun _ => .exn,
          pollView := fun _ => .absent }
        ⟨some (.entry ⟨0, ⟨[⟨"d", 5⟩]⟩, none⟩), false, some 0⟩).2.store.lock =
      false :=
  c1_failure_never_cached _ ⟨some (.entry ⟨0, ⟨[⟨"d", 5⟩]⟩, none⟩), false, some 0⟩
    (fun _ => .apifyFailure) (fun _ => rfl) (by decide)
    (fun e h => by cases h; decide) rfl (fun _ => rfl) (fun _ => rfl)

lemma countApify_apifyRetryTrace (j : Nat) :
    countApifyAttempts (apifyRetryTrace j) = j + 1 := by
  induction j with
  | zero => rfl
  | succ j ih =>
    simp only [apifyRetryTrace, countApifyAttempts, List.filter_append, List.length_append]
    simp only [countApifyAttempts] at ih
    simp [ih, isApifyAttempt]

/-- C5: with the primary (pytrends) failing on every attempt and the
secondary (Apify) first succeeding on attempt `j < 3`, the orchestrator's
fetch runs exactly this sequence: 2 pytrends attempts with a single 3s
backoff between them, then the lock-TTL extension to 120s, then the Apify
attempts (`j+1` of them, 2s backoff between consecutive ones,
`apifyRetryTrace j`), and the secondary's payload is what is returned and
cached; the primary is never re-attempted at the chain level
(`countPyAttempts = 2`). -/
theorem c5_provider_fallback (c : Ctx) (init : Store) (aerr : Nat → Err) (j : Nat)
    (rows : List Point) (st : Stats) (p : Processed)
    (hA : ∀ t, c.avail t = true)
    (hU : init.usage.getD 0 < c.limit)
    (hNF : ∀ e, init.cache = some (.entry e) → 86400 ≤ c.now - e.timestamp)
    (hL : init.lock = false)
    (hPy : ∀ i, pytrends_attempt (c.pyO i) = .error .pytrendsUnavailable)
    (hj : j < 3)
    (hApF : ∀ i, i < j → apify_attempt (c.apO i) = .error (aerr i))
    (hApS : apify_attempt (c.apO j) = .ok (rows, st))
    (hP : process_data rows = .ok p) :
    (get_prediction_swr c init).1 = .ok (p, "apify", some st) ∧
    (get_prediction_swr c init).2.store.cache = some (.entry ⟨c.now, p, some st⟩) ∧
    (get_prediction_swr c init).2.trace =
      ([Ev.rGet c.usageKey, Ev.rIncr c.usageKey, Ev.rExpire c.usageKey 86400,
        Ev.rGet c.cacheKey, Ev.rSetNX c.lockKey 60,
        Ev.pyAttempt 0, Ev.sleep 3000, Ev.pyAttempt 1, Ev.rExpire c.lockKey 120] ++
       apifyRetryTrace j) ++ [Ev.rSetEx c.cacheKey 88200, Ev.rDel c.lockKey] ∧
    countPyAttempts (get_prediction_swr c init).2.trace = 2 ∧
    countApifyAttempts (get_prediction_swr c init).2.trace = j + 1 := by
  have hCh := chainOutcome_fallback_success c.pyO c.apO aerr j rows st p hPy hj hApF hApS hP
  have hEv := chainEvs_fallback c aerr j rows st hPy hj hApF hApS
  rw [swr_fetcher_eq c init hA hU hNF hL,
    fetchAndCache_ok c
      ⟨⟨init.cache, true, some (init.usage.getD 0 + 1)⟩, 15,
       [Ev.rGet c.usageKey, Ev.rIncr c.usageKey, Ev.rExpire c.usageKey 86400,
        Ev.rGet c.cacheKey, Ev.rSetNX c.lockKey 60]⟩
      p "apify" st hA hCh]
  have htr :
      ([Ev.rGet c.usageKey, Ev.rIncr c.usageKey, Ev.rExpire c.usageKey 86400,
        Ev.rGet c.cacheKey, Ev.rSetNX c.lockKey 60] ++ chainEvs c ++
       [Ev.rSetEx c.cacheKey 88200, Ev.rDel c.lockKey]) =
      ([Ev.rGet c.usageKey, Ev.rIncr c.usageKey, Ev.rExpire c.usageKey 86400,
        Ev.rGet c.cacheKey, Ev.rSetNX c.lockKey 60,
        Ev.pyAttempt 0, Ev.sleep 3000, Ev.pyAttempt 1, Ev.rExpire c.lockKey 120] ++
       apifyRetryTrace j) ++ [Ev.rSetEx c.cacheKey 88200, Ev.rDel c.lockKey] := by
    rw [hEv]
    simp
  refine ⟨rfl, rfl, ?_, ?_, ?_⟩
  · show ([Ev.rGet c.usageKey, Ev.rIncr c.usageKey, Ev.rExpire c.usageKey 86400,
        Ev.rGet c.cacheKey, Ev.rSetNX c.lockKey 60] ++ chainEvs c ++
       [Ev.rSetEx c.cacheKey 88200, Ev.rDel c.lockKey]) = _
    exact htr
  · show countPyAttempts
        ([Ev.rGet c.usageKey, Ev.rIncr c.usageKey, Ev.rExpire c.usageKey 86400,
          Ev.rGet c.cacheKey, Ev.rSetNX c.lockKey 60] ++ chainEvs c ++
         [Ev.rSetEx c.cacheKey 88200, Ev.rDel c.lockKey]) = 2
    have h1 : countPyAttempts
        [Ev.rGet c.usageKey, Ev.rIncr c.usageKey, Ev.rExpire c.usageKey 86400,
         Ev.rGet c.cacheKey, Ev.rSetNX c.lockKey 60,
         Ev.pyAttempt 0, Ev.sleep 3000, Ev.pyAttempt 1, Ev.rExpire c.lockKey 120] = 2 := by
      simp [countPyAttempts, isPyAttempt]
    have h2 : countPyAttempts [Ev.rSetEx c.cacheKey 88200, Ev.rDel c.lockKey] = 0 := by
      simp [countPyAttempts, isPyAttempt]
    rw [htr, countPyAttempts_append, countPyAttempts_append, countPy_apifyRetryTrace,
      h1, h2]
  · show countApifyAttempts
        ([Ev.rGet c.usageKey, Ev.rIncr c.usageKey, Ev.rExpire c.usageKey 86400,
          Ev.rGet c.cacheKey, Ev.rSetNX c.lockKey 60] ++ chainEvs c ++
         [Ev.rSetEx c.cacheKey 88200, Ev.rDel c.lockKey]) = j + 1
    have h1 : countApifyAttempts
        [Ev.rGet c.usageKey, Ev.rIncr c.usageKey, Ev.rExpire c.usageKey 86400,
         Ev.rGet c.cacheKey, Ev.rSetNX c.lockKey 60,
         Ev.pyAttempt 0, Ev.sleep 3000, Ev.pyAttempt 1, Ev.rExpire c.lockKey 120] = 0 := by
      simp [countApifyAttempts, isApifyAttempt]
    have h2 : countApifyAttempts [Ev.rSetEx c.cacheKey 88200, Ev.rDel c.lockKey] = 0 := by
      simp [countApifyAttempts, isApifyAttempt]
    rw [htr, countApifyAttempts_append, countApifyAttempts_append,
      countApify_apifyRetryTrace, h1, h2]
    omega

/-- C5 witness: pytrends always times out, Apify fails once then succeeds
on its second attempt (`j = 1`). -/
theorem c5_provider_fallback_witness :
    (get_prediction_swr
        { keyword := "k", limit := 500, dateStr := "2026-10-12", now := 100,
          avail := fun _ => true, pyO := fun _ => .exn,
          apO := fun i => if i = 0 then .exn else .ok [⟨"d", 5⟩] 7 9,
          pollView := fun _ => .absent }
        ⟨none, false, some 0⟩).1 =
      .ok (⟨[⟨"d", 5⟩]⟩, "apify", some ⟨7, 9, none⟩) ∧
    (get_prediction_swr
        { keyword := "k", limit := 500, dateStr := "2026-10-12", now := 100,
          avail := fun _ => true, pyO := fun _ => .exn,
          apO := fun i => if i = 0 then .exn else .ok [⟨"d", 5⟩] 7 9,
          pollView := fun _ => .absent }
        ⟨none, false, some 0⟩).2.store.cache =
      some (.entry ⟨100, ⟨[⟨"d", 5⟩]⟩, some ⟨7, 9, none⟩⟩) ∧
    (get_prediction_swr
        { keyword := "k", limit := 500, dateStr := "2026-10-12", now := 100,
          avail := fun _ => true, pyO := fun _ => .exn,
          apO := fun i => if i = 0 then .exn else .ok [⟨"d", 5⟩] 7 9,
          pollView := fun _ => .absent }
        ⟨none, false, some 0⟩).2.trace =
      ([Ev.rGet (usageKeyOf "2026-10-12"), Ev.rIncr (usageKeyOf "2026-10-12"),
        Ev.rExpire (usageKeyOf "2026-10-12") 86400, Ev.rGet (cacheKeyOf "k"),
        Ev.rSetNX (lockKeyOf "k") 60, Ev.pyAttempt 0, Ev.sleep 3000,
        Ev.pyAttempt 1, Ev.rExpire (lockKeyOf "k") 120] ++ apifyRetryTrace 1) ++
      [Ev.rSetEx (cacheKeyOf "k") 88200, Ev.rDel (lockKeyOf "k")] ∧
    countPyAttempts (get_prediction_swr
        { keyword := "k", limit := 500, dateStr := "2026-10-12", now := 100,
          avail := fun _ => true, pyO := fun _ => .exn,
          apO := fun i => if i = 0 then .exn else .ok [⟨"d", 5⟩] 7 9,
          pollView := fun _ => .absent }
        ⟨none, false, some 0⟩).2.trace = 2 ∧
    countApifyAttempts (get_prediction_swr
        { keyword := "k", limit := 500, dateStr := "2026-10-12", now := 100,
          avail := fun _ => true, pyO := fun _ => .exn,
          apO := fun i => if i = 0 then .exn else .ok [⟨"d", 5⟩] 7 9,
          pollView := fun _ => .absent }
        ⟨none, false, some 0⟩).2.trace = 1 + 1 :=
  c5_provider_fallback _ ⟨none, false, some 0⟩ (fun _ => .apifyFailure) 1
    [⟨"d", 5⟩] ⟨7, 9, none⟩ ⟨[⟨"d", 5⟩]⟩
    (fun _ => rfl) (by decide) (fun _ h => by cases h) rfl (fun _ => rfl)
    (by decide) (fun i hi => by interval_cases i; rfl) rfl rfl

/-- C6: a caller that fails to acquire the lock polls only the cache, every
500ms, for at most 10 attempts, and on exhaustion raises
`HTTPException(503)`: its full trace is the five coordination events
followed by exactly ten `[sleep 500, GET trend:<k>]` pairs — one SETNX in
the whole call (no lock re-acquisition) and zero provider attempts (no
fetch of its own). -/
theorem c6_waiter_timeout (c : Ctx) (init : Store)
    (hA : ∀ t, c.avail t = true)
    (hU : init.usage.getD 0 < c.limit)
    (hNF : ∀ e, init.cache = some (.entry e) → 86400 ≤ c.now - e.timestamp)
    (hL : init.lock = true)
    (hPoll : ∀ j e, c.pollView j ≠ .entry e) :
    (get_prediction_swr c init).1 = .error .http503 ∧
    (get_prediction_swr c init).2.trace =
      [Ev.rGet c.usageKey, Ev.rIncr c.usageKey, Ev.rExpire c.usageKey 86400,
       Ev.rGet c.cacheKey, Ev.rSetNX c.lockKey 60] ++ pollEvs c 10 ∧
    countLockSetAttempts (get_prediction_swr c init).2.trace = 1 ∧
    countPyAttempts (get_prediction_swr c init).2.trace = 0 ∧
    countApifyAttempts (get_prediction_swr c init).2.trace = 0 := by
  rw [swr_waiter_eq c init hA hU hNF hL,
    waiterPolls_timeout c hPoll 10 0
      ⟨⟨init.cache, true, some (init.usage.getD 0 + 1)⟩, 15,
       [Ev.rGet c.usageKey, Ev.rIncr c.usageKey, Ev.rExpire c.usageKey 86400,
        Ev.rGet c.cacheKey, Ev.rSetNX c.lockKey 60]⟩]
  refine ⟨rfl, rfl, ?_, ?_, ?_⟩
  · show countLockSetAttempts
        ([Ev.rGet c.usageKey, Ev.rIncr c.usageKey, Ev.rExpire c.usageKey 86400,
          Ev.rGet c.cacheKey, Ev.rSetNX c.lockKey 60] ++ pollEvs c 10) = 1
    simp [pollEvs, countLockSetAttempts, isLockSet]
  · show countPyAttempts
        ([Ev.rGet c.usageKey, Ev.rIncr c.usageKey, Ev.rExpire c.usageKey 86400,
          Ev.rGet c.cacheKey, Ev.rSetNX c.lockKey 60] ++ pollEvs c 10) = 0
    simp [pollEvs, countPyAttempts, isPyAttempt]
  · show countApifyAttempts
        ([Ev.rGet c.usageKey, Ev.rIncr c.usageKey, Ev.rExpire c.usageKey 86400,
          Ev.rGet c.cacheKey, Ev.rSetNX c.lockKey 60] ++ pollEvs c 10) = 0
    simp [pollEvs, countApifyAttempts, isApifyAttempt]

/-- C6 witness: lock held elsewhere, cache never populated during the ten
polls. -/
theorem c6_waiter_timeout_witness :
    (get_prediction_swr
        { keyword := "k", limit := 500, dateStr := "2026-10-12", now := 100,
          avail := fun _ => true, pyO := fun _ => .exn, apO := fun _ => .exn,
          pollView := fun _ => .absent }
        ⟨none, true, some 0⟩).1 = .error .http503 ∧
    (get_prediction_swr
        { keyword := "k", limit := 500, dateStr := "2026-10-12", now := 100,
          avail := fun _ => true, pyO := fun _ => .exn, apO := fun _ => .exn,
          pollView := fun _ => .absent }
        ⟨none, true, some 0⟩).2.trace =
      [Ev.rGet (usageKeyOf "2026-10-12"), Ev.rIncr (usageKeyOf "2026-10-12"),
       Ev.rExpire (usageKeyOf "2026-10-12") 86400, Ev.rGet (cacheKeyOf "k"),
       Ev.rSetNX (lockKeyOf "k") 60] ++
      pollEvs
        { keyword := "k", limit := 500, dateStr := "2026-10-12", now := 100,
          avail := fun _ => true, pyO := fun _ => .exn, apO := fun _ => .exn,
          pollView := fun _ => .absent } 10 ∧
    countLockSetAttempts (get_prediction_swr
        { keyword := "k", limit := 500, dateStr := "2026-10-12", now := 100,
          avail := fun _ => true, pyO := fun _ => .exn, apO := fun _ => .exn,
          pollView := fun _ => .absent }
        ⟨none, true, some 0⟩).2.trace = 1 ∧
    countPyAttempts (get_prediction_swr
        { keyword := "k", limit := 500, dateStr := "2026-10-12", now := 100,
          avail := fun _ => true, pyO := fun _ => .exn, apO := fun _ => .exn,
          pollView := fun _ => .absent }
        ⟨none, true, some 0⟩).2.trace = 0 ∧
    countApifyAttempts (get_prediction_swr
        { keyword := "k", limit := 500, dateStr := "2026-10-12", now := 100,
          avail := fun _ => true, pyO := fun _ => .exn, apO := fun _ => .exn,
          pollView := fun _ => .absent }
        ⟨none, true, some 0⟩).2.trace = 0 :=
  c6_waiter_timeout _ ⟨none, true, some 0⟩ (fun _ => rfl) (by decide)
    (fun _ h => by cases h) rfl (fun _ _ h => by cases h)

/-- C7: on a successful fetch by the lock holder, the write of the cache
entry (`SETEX trend:<k> 88200`) occurs strictly before the lock deletion
(`DEL lock:<k>`) in the call's operation sequence: the trace ends with the
write immediately followed by the delete, and no delete of the lock key
occurs anywhere earlier; the final store holds the fresh entry and no
lock. -/
theorem c7_write_before_release (c : Ctx) (init : Store)
    (p : Processed) (src : String) (st : Stats)
    (hA : ∀ t, c.avail t = true)
    (hU : init.usage.getD 0 < c.limit)
    (hNF : ∀ e, init.cache = some (.entry e) → 86400 ≤ c.now - e.timestamp)
    (hL : init.lock = false)
    (hC : chainOutcome c.pyO c.apO = .ok (p, src, st)) :
    (∃ pre, (get_prediction_swr c init).2.trace =
        pre ++ [Ev.rSetEx c.cacheKey 88200, Ev.rDel c.lockKey] ∧
      Ev.rDel c.lockKey ∉ pre ∧ Ev.rSetEx c.cacheKey 88200 ∉ pre) ∧
    (get_prediction_swr c init).2.store.cache =
      some (.entry ⟨c.now, p, some st⟩) ∧
    (get_prediction_swr c init).2.store.lock = false := by
  rw [swr_fetcher_eq c init hA hU hNF hL,
    fetchAndCache_ok c
      ⟨⟨init.cache, true, some (init.usage.getD 0 + 1)⟩, 15,
       [Ev.rGet c.usageKey, Ev.rIncr c.usageKey, Ev.rExpire c.usageKey 86400,
        Ev.rGet c.cacheKey, Ev.rSetNX c.lockKey 60]⟩
      p src st hA hC]
  refine ⟨⟨[Ev.rGet c.usageKey, Ev.rIncr c.usageKey, Ev.rExpire c.usageKey 86400,
      Ev.rGet c.cacheKey, Ev.rSetNX c.lockKey 60] ++ chainEvs c, ?_, ?_, ?_⟩,
    rfl, rfl⟩
  · show ([Ev.rGet c.usageKey, Ev.rIncr c.usageKey, Ev.rExpire c.usageKey 86400,
        Ev.rGet c.cacheKey, Ev.rSetNX c.lockKey 60] ++ chainEvs c ++
       [Ev.rSetEx c.cacheKey 88200, Ev.rDel c.lockKey]) = _
    simp
  · intro hmem
    rcases List.mem_append.mp hmem with h | h
    · simp at h
    · rcases chainEvs_shape c _ h with ⟨i, h1⟩ | ⟨i, h1⟩ | ⟨m, h1⟩ | h1 <;> cases h1
  · intro hmem
    rcases List.mem_append.mp hmem with h | h
    · simp at h
    · rcases chainEvs_shape c _ h with ⟨i, h1⟩ | ⟨i, h1⟩ | ⟨m, h1⟩ | h1 <;> cases h1

/-- C7 witness: pytrends succeeds on the first attempt. -/
theorem c7_write_before_release_witness :
    (∃ pre, (get_prediction_swr
        { keyword := "k", limit := 500, dateStr := "2026-10-12", now := 100,
          avail := fun _ => true, pyO := fun _ => .ok [⟨"d", 5⟩] 7,
          apO := fun _ => .exn, pollView := fun _ => .absent }
        ⟨none, false, some 0⟩).2.trace =
        pre ++ [Ev.rSetEx (cacheKeyOf "k") 88200, Ev.rDel (lockKeyOf "k")] ∧
      Ev.rDel (lockKeyOf "k") ∉ pre ∧
      Ev.rSetEx (cacheKeyOf "k") 88200 ∉ pre) ∧
    (get_prediction_swr
        { keyword := "k", limit := 500, dateStr := "2026-10-12", now := 100,
          avail := fun _ => true, pyO := fun _ => .ok [⟨"d", 5⟩] 7,
          apO := fun _ => .exn, pollView := fun _ => .absent }
        ⟨none, false, some 0⟩).2.store.cache =
      some (.entry ⟨100, ⟨[⟨"d", 5⟩]⟩, some ⟨7, 0, some "pytrends"⟩⟩) ∧
    (get_prediction_swr
        { keyword := "k", limit := 500, dateStr := "2026-10-12", now := 100,
          avail := fun _ => true, pyO := fun _ => .ok [⟨"d", 5⟩] 7,
          apO := fun _ => .exn, pollView := fun _ => .absent }
        ⟨none, false, some 0⟩).2.store.lock = false :=
  c7_write_before_release _ ⟨none, false, some 0⟩ ⟨[⟨"d", 5⟩]⟩ "pytrends"
    ⟨7, 0, some "pytrends"⟩ (fun _ => rfl) (by decide) (fun _ h => by cases h)
    rfl rfl

/-- C8: fail-open degraded mode — with the store unavailable for the whole
call, the rate-limit check does not reject, lock acquisition is treated as
granted (the caller becomes its own fetcher), and the call's outcome is
exactly the provider chain's outcome; in particular it is never
`RateLimitExceeded` (429) or `ServiceBusy` (503). -/
theorem c8_fail_open (c : Ctx) (init : Store)
    (hA : ∀ t, c.avail t = false) :
    (get_prediction_swr c init).1 =
      (chainOutcome c.pyO c.apO).map (fun x => (x.1, x.2.1, some x.2.2)) ∧
    (get_prediction_swr c init).1 ≠ .error .http429 ∧
    (get_prediction_swr c init).1 ≠ .error .http503 := by
  have hpath : get_prediction_swr c init =
      fetchAndCache c
        ⟨init, 9, [Ev.rGet c.usageKey, Ev.rGet c.cacheKey, Ev.rSetNX c.lockKey 60]⟩ := by
    simp [get_prediction_swr, rateLimitStep, cacheCheckStep, lockAcquireStep,
      opStep, tryOp, hA]
  have hfst := fetchAndCache_fst c
    ⟨init, 9, [Ev.rGet c.usageKey, Ev.rGet c.cacheKey, Ev.rSetNX c.lockKey 60]⟩
  refine ⟨by rw [hpath]; exact hfst, ?_, ?_⟩
  · rw [hpath, hfst]
    rcases h : chainOutcome c.pyO c.apO with e | v
    · rcases chainOutcome_error _ _ _ h with rfl | rfl | rfl <;> simp [Except.map]
    · simp [Except.map]
  · rw [hpath, hfst]
    rcases h : chainOutcome c.pyO c.apO with e | v
    · rcases chainOutcome_error _ _ _ h with rfl | rfl | rfl <;> simp [Except.map]
    · simp [Except.map]

/-- C8 witness: store entirely down, pytrends succeeds — the caller fetches
and returns the data anyway. -/
theorem c8_fail_open_witness :
    (get_prediction_swr
        { keyword := "k", limit := 500, dateStr := "2026-10-12", now := 100,
          avail := fun _ => false, pyO := fun _ => .ok [⟨"d", 5⟩] 7,
          apO := fun _ => .exn, pollView := fun _ => .absent }
        ⟨none, true, some 999⟩).1 =
      (chainOutcome (fun _ => .ok [⟨"d", 5⟩] 7) (fun _ => .exn)).map
        (fun x => (x.1, x.2.1, some x.2.2)) ∧
    (get_prediction_swr
        { keyword := "k", limit := 500, dateStr := "2026-10-12", now := 100,
          avail := fun _ => false, pyO := fun _ => .ok [⟨"d", 5⟩] 7,
          apO := fun _ => .exn, pollView := fun _ => .absent }
        ⟨none, true, some 999⟩).1 ≠ .error .http429 ∧
    (get_prediction_swr
        { keyword := "k", limit := 500, dateStr := "2026-10-12", now := 100,
          avail := fun _ => false, pyO := fun _ => .ok [⟨"d", 5⟩] 7,
          apO := fun _ => .exn, pollView := fun _ => .absent }
        ⟨none, true, some 999⟩).1 ≠ .error .http503 :=
  c8_fail_open _ ⟨none, true, some 999⟩ (fun _ => rfl)

/-- C9, counterexample: an Apify run that yields zero data points raises
`DataNotFoundException`, and — contrary to the claim that DataNotFound is
not retried by the provider's own retry loop — `fetch_from_apify`'s
tenacity decorator has no exception filter, so the same zero-point outcome
is attempted 3 times (with 2s backoffs) before the error propagates.
Additionally, the primary (pytrends) classifies an empty frame as
`PyTrendsUnavailableException`, not `DataNotFound`. -/
theorem c9_counterexample :
    (fetch_from_apify fun _ => .ok [] 0 0).1 = .error .dataNotFound ∧
    (fetch_from_apify fun _ => .ok [] 0 0).2 =
      [Ev.apifyAttempt 0, Ev.sleep 2000, Ev.apifyAttempt 1, Ev.sleep 2000,
       Ev.apifyAttempt 2] ∧
    countApifyAttempts (fetch_from_apify fun _ => .ok [] 0 0).2 = 3 ∧
    pytrends_attempt .emptyDf = .error .pytrendsUnavailable := by
  exact ⟨rfl, rfl, rfl, rfl⟩

/-- C9, amended: only the secondary provider (Apify) raises `DataNotFound`
on zero data points — the primary treats an empty result as
`ProviderUnavailable` — and a `DataNotFound` failure IS retried by the
secondary's own 3-attempt retry loop (tenacity's default retries every
exception), though never at the chain level: once the secondary's budget
is exhausted the `DataNotFound` error propagates as the chain's outcome. -/
theorem c9_empty_result_classification (pyO : Nat → PyOutcome)
    (apO : Nat → ApifyOutcome)
    (hPy : ∀ i, pytrends_attempt (pyO i) = .error .pytrendsUnavailable)
    (hAp : ∀ i, apify_attempt (apO i) = .error .dataNotFound) :
    (∀ d cu, apify_attempt (.ok [] d cu) = .error .dataNotFound) ∧
    pytrends_attempt .emptyDf = .error .pytrendsUnavailable ∧
    fetch_from_apify apO =
      (.error .dataNotFound,
       [Ev.apifyAttempt 0, Ev.sleep 2000, Ev.apifyAttempt 1, Ev.sleep 2000,
        Ev.apifyAttempt 2]) ∧
    chainOutcome pyO apO = .error .dataNotFound := by
  refine ⟨fun d cu => rfl, rfl, ?_, ?_⟩
  · exact fetch_from_apify_all_fail apO (fun _ => .dataNotFound) hAp
  · exact chainOutcome_all_fail pyO apO (fun _ => .dataNotFound) hPy hAp

/-- C9 witness: every Apify attempt yields zero points, every pytrends
attempt an empty frame. -/
theorem c9_empty_result_classification_witness :
    (∀ d cu, apify_attempt (.ok [] d cu) = .error .dataNotFound) ∧
    pytrends_attempt .emptyDf = .error .pytrendsUnavailable ∧
    fetch_from_apify (fun _ => .ok [] 0 0) =
      (.error .dataNotFound,
       [Ev.apifyAttempt 0, Ev.sleep 2000, Ev.apifyAttempt 1, Ev.sleep 2000,
        Ev.apifyAttempt 2]) ∧
    chainOutcome (fun _ => .emptyDf) (fun _ => .ok [] 0 0) =
      .error .dataNotFound :=
  c9_empty_result_classification (fun _ => .emptyDf) (fun _ => .ok [] 0 0)
    (fun _ => rfl) (fun _ => rfl)

/-- C10: when the store is down exactly during lock acquisition (attempt
slots 12-14) but back up afterwards, the caller proceeds in fail-open mode
as its own fetcher (it performs a pytrends attempt) even though another
caller's lock is present (`init.lock = true`), and its guaranteed-release
block still runs the unconditional `DEL lock:<k>` — so the other holder's
lock is removed by a caller that never created it (`lock = false`
afterwards). -/
theorem c10_failopen_deletes_foreign_lock (c : Ctx) (init : Store)
    (hD12 : c.avail 12 = false) (hD13 : c.avail 13 = false)
    (hD14 : c.avail 14 = false)
    (hUp : ∀ t, t < 12 ∨ 15 ≤ t → c.avail t = true)
    (hU : init.usage.getD 0 < c.limit)
    (hNF : ∀ e, init.cache = some (.entry e) → 86400 ≤ c.now - e.timestamp)
    (hL : init.lock = true) :
    Ev.rDel c.lockKey ∈ (get_prediction_swr c init).2.trace ∧
    (get_prediction_swr c init).2.store.lock = false ∧
    Ev.pyAttempt 0 ∈ (get_prediction_swr c init).2.trace := by
  have e0 := hUp 0 (Or.inl (by norm_num))
  have e3 := hUp 3 (Or.inl (by norm_num))
  have e9 := hUp 9 (Or.inl (by norm_num))
  have hpath : get_prediction_swr c init =
      fetchAndCache c
        ⟨⟨init.cache, init.lock, some (init.usage.getD 0 + 1)⟩, 15,
         [Ev.rGet c.usageKey, Ev.rIncr c.usageKey, Ev.rExpire c.usageKey 86400,
          Ev.rGet c.cacheKey, Ev.rSetNX c.lockKey 60]⟩ := by
    rcases hc : init.cache with _ | cv
    · simp [get_prediction_swr, rateLimitStep, cacheCheckStep, lockAcquireStep,
        opStep, tryOp, e0, e3, e9, hD12, hD13, hD14, Nat.not_le.mpr hU, hc]
    · cases cv with
      | corrupt =>
        simp [get_prediction_swr, rateLimitStep, cacheCheckStep, lockAcquireStep,
          opStep, tryOp, e0, e3, e9, hD12, hD13, hD14, Nat.not_le.mpr hU, hc]
      | entry e =>
        simp [get_prediction_swr, rateLimitStep, cacheCheckStep, lockAcquireStep,
          opStep, tryOp, e0, e3, e9, hD12, hD13, hD14, Nat.not_le.mpr hU, hc,
          Nat.not_lt.mpr (hNF e hc)]
  refine ⟨?_, ?_, ?_⟩
  · rw [hpath, fetchAndCache_trace]
    rcases h : chainOutcome c.pyO c.apO with e | v <;> simp [exceptIsOk, h]
  · rw [hpath]
    exact fetchAndCache_lock_false c _ (fun t ht => hUp t (Or.inr ht))
  · rw [hpath, fetchAndCache_trace]
    have := pyAttempt0_mem_chainEvs c
    rcases h : chainOutcome c.pyO c.apO with e | v <;> simp [exceptIsOk, h] <;>
      simp [this]

/-- C10 witness. -/
theorem c10_failopen_deletes_foreign_lock_witness :
    Ev.rDel (lockKeyOf "k") ∈
      (get_prediction_swr
        { keyword := "k", limit := 500, dateStr := "2026-10-12", now := 100,
          avail := fun t => decide (t < 12) || decide (15 ≤ t),
          pyO := fun _ => .exn, apO := fun _ => .exn,
          pollView := fun _ => .absent }
        ⟨none, true, some 0⟩).2.trace ∧
    (get_prediction_swr
        { keyword := "k", limit := 500, dateStr := "2026-10-12", now := 100,
          avail := fun t => decide (t < 12) || decide (15 ≤ t),
          pyO := fun _ => .exn, apO := fun _ => .exn,
          pollView := fun _ => .absent }
        ⟨none, true, some 0⟩).2.store.lock = false ∧
    Ev.pyAttempt 0 ∈
      (get_prediction_swr
        { keyword := "k", limit := 500, dateStr := "2026-10-12", now := 100,
          avail := fun t => decide (t < 12) || decide (15 ≤ t),
          pyO := fun _ => .exn, apO := fun _ => .exn,
          pollView := fun _ => .absent }
        ⟨none, true, some 0⟩).2.trace :=
  c10_failopen_deletes_foreign_lock _ ⟨none, true, some 0⟩
    (by decide) (by decide) (by decide)
    (fun t ht => by
      rcases ht with h | h <;> simp_all)
    (by decide) (fun _ h => by cases h) rfl

end Swr